import Mathlib

/-!
Verification development for the `Tracker` of `mind-ar-ts`
(`src/image-target/trackers/tracker.ts`, provided as `src/unnamed/part_000`).

The embedding is exact-arithmetic: the GLSL float expressions of the WebGL
kernels are read over `ℚ` (and over `ℝ` where `sqrt` and the final NCC
quotient appear), integer GLSL expressions over `ℤ`/`ℕ`.  All integer and
rational plumbing is executable; only the similarity values themselves
(which involve `Real.sqrt`) live in `ℝ`.

The constants module `utils/constant/tracker` (AR2_DEFAULT_TS,
AR2_DEFAULT_TS_GAP, AR2_SEARCH_SIZE, AR2_SEARCH_GAP, AR2_SIM_THRESH,
TRACKING_KEYFRAME) is not part of the provided sources; following the
specification (§4.3), which describes them as tunable compile-time
configuration, they are modelled as an explicit parameter record
`TrackerConsts` and theorems are stated for all (or suitably constrained)
values of these constants.
-/

set_option maxRecDepth 10000

namespace MindAR

/-- Modelled from the spec: the tracker constants module
`src/image-target/utils/constant/tracker` is not under the provided sources.
§4.3 of the spec describes the search/template constants as tunable
compile-time configuration, §4.4/§7 the similarity threshold, §6 the
keyframe selection index; the record carries them all as parameters. -/
structure TrackerConsts where
  AR2_DEFAULT_TS : ℕ
  AR2_DEFAULT_TS_GAP : ℕ
  AR2_SEARCH_SIZE : ℕ
  AR2_SEARCH_GAP : ℕ
  AR2_SIM_THRESH : ℚ
  TRACKING_KEYFRAME : ℕ

/-- Source line 20: the fixed precision-adjust constant. -/
def PRECISION_ADJUST : ℚ := 1000

/-- Source line 160: `templateOneSize = AR2_DEFAULT_TS`. -/
def TrackerConsts.templateOneSize (c : TrackerConsts) : ℕ := c.AR2_DEFAULT_TS

/-- Source line 161: `templateSize = templateOneSize * 2 + 1`. -/
def TrackerConsts.templateSize (c : TrackerConsts) : ℕ := c.templateOneSize * 2 + 1

/-- Source line 162: `templateGap = AR2_DEFAULT_TS_GAP`. -/
def TrackerConsts.templateGap (c : TrackerConsts) : ℕ := c.AR2_DEFAULT_TS_GAP

/-- Source line 163: `searchOneSize = AR2_SEARCH_SIZE * templateGap`. -/
def TrackerConsts.searchOneSize (c : TrackerConsts) : ℕ := c.AR2_SEARCH_SIZE * c.templateGap

/-- Source line 164: `searchGap = AR2_SEARCH_GAP`. -/
def TrackerConsts.searchGap (c : TrackerConsts) : ℕ := c.AR2_SEARCH_GAP

/-- Source line 165: `searchSize = searchOneSize * 2 + 1`. -/
def TrackerConsts.searchSize (c : TrackerConsts) : ℕ := c.searchOneSize * 2 + 1

/-- Number of candidate offsets per feature, the second output dimension of
kernel 1 (source line 173: `searchSize * searchSize`). -/
def TrackerConsts.searchNum (c : TrackerConsts) : ℕ := c.searchSize * c.searchSize

/-- A tracked feature point `(x, y)` in reference-image pixel space. -/
structure TrackingPoint where
  x : ℚ
  y : ℚ
deriving DecidableEq

/-- One keyframe record of `ITrackingFeature`: flat pixel buffer, feature
points, dimensions and scale. -/
structure ITrackingFeature where
  data : List ℚ
  points : List TrackingPoint
  width : ℕ
  height : ℕ
  scale : ℚ
deriving DecidableEq

/-- GLSL `int()` conversion: truncation toward zero. -/
def glslInt (q : ℚ) : ℤ := if 0 ≤ q then ⌊q⌋ else ⌈q⌉

/-- Texture fetch from a flat 1-D buffer (out-of-range reads yield 0). -/
def fetch1D (data : List ℚ) (i : ℤ) : ℚ :=
  if 0 ≤ i then data.getD i.toNat 0 else 0

/-- Texture fetch from a 2-D buffer, row major (out-of-range reads yield 0). -/
def fetch2D (img : List (List ℚ)) (y x : ℤ) : ℚ :=
  if 0 ≤ y ∧ 0 ≤ x then (img.getD y.toNat []).getD x.toNat 0 else 0

/-! ### `_prebuild` (source lines 389-413) -/

/-- Source lines 393-399: the padded feature-point batch. Real slots hold
`(points[k].x / scale, points[k].y / scale)`, padding slots `(-1, -1)`. -/
def prebuildFeaturePoints (kf : ITrackingFeature) (maxCount : ℕ) : List (ℚ × ℚ) :=
  (List.range maxCount).map fun k =>
    if k < kf.points.length then
      ((kf.points.getD k ⟨0, 0⟩).x / kf.scale, (kf.points.getD k ⟨0, 0⟩).y / kf.scale)
    else (-1, -1)

/-- Source line 401: the flat marker pixel buffer. -/
def prebuildImagePixels (kf : ITrackingFeature) : List ℚ := kf.data

/-- Source line 403: the `[width, height, scale]` properties tensor. -/
def prebuildImageProperties (kf : ITrackingFeature) : ℕ × ℕ × ℚ :=
  (kf.width, kf.height, kf.scale)

/-! ### Constructor (source lines 32-69) -/

/-- Device-resident state of a constructed `Tracker`. The constructor
parameters `markerDimensions`, `inputWidth` and `inputHeight` are discarded
by the source (they are named `_markerDimensions`, `_inputWidth`,
`_inputHeight` and never read), so no field holds them. -/
structure Tracker where
  projectionTransform : Fin 3 → Fin 4 → ℚ
  trackingKeyframeList : List ITrackingFeature
  debugMode : Bool
  featurePointsList : List (List (ℚ × ℚ))
  imagePixelsList : List (List ℚ)
  imagePropertiesList : List (ℕ × ℕ × ℚ)

/-- Source lines 49-51: `maxCount` is the maximum point count over all
keyframes. -/
def maxPointCount (kfs : List ITrackingFeature) : ℕ :=
  kfs.foldl (fun m kf => max m kf.points.length) 0

/-- The constructor (source lines 32-69). Two calls it makes can throw, and
both are modelled by `Option`: `trackingDataList[i][TRACKING_KEYFRAME]` is
undefined in JavaScript when the keyframe index is out of range and the
subsequent field accesses then throw, and `_prebuild`'s
`tf.tensor(data, [width * height])` (source line 401) throws when a
keyframe's flat pixel buffer length does not match its declared
`width * height` shape. No other validation is performed by the source. -/
def Tracker.make (c : TrackerConsts) (_markerDimensions : List (ℚ × ℚ))
    (trackingDataList : List (List ITrackingFeature))
    (projectionTransform : Fin 3 → Fin 4 → ℚ)
    (_inputWidth _inputHeight : ℕ) (debugMode : Bool) : Option Tracker := do
  let trackingKeyframeList ← trackingDataList.mapM fun lst => lst.get? c.TRACKING_KEYFRAME
  let maxCount := maxPointCount trackingKeyframeList
  if trackingKeyframeList.all fun kf => kf.data.length == kf.width * kf.height then
    pure
      { projectionTransform := projectionTransform
        trackingKeyframeList := trackingKeyframeList
        debugMode := debugMode
        featurePointsList := trackingKeyframeList.map fun kf => prebuildFeaturePoints kf maxCount
        imagePixelsList := trackingKeyframeList.map prebuildImagePixels
        imagePropertiesList := trackingKeyframeList.map prebuildImageProperties }
  else none

/-! ### Matching kernel 1 (source lines 171-243)

The GLSL program is generated once per cache fill; the spliced-in template
literals `${searchSize}`, `${searchGap}`, `${searchOneSize}`,
`${templateOneSize}`, `${templateSize}`, `${targetWidth}` and
`${targetHeight}` are compile-time constants of the generated source, so the
embedded kernel takes the target dimensions `W`, `H` it was generated with as
explicit arguments; everything else (`features`, `markerPixels`,
`markerProperties`, `targetPixels`) is a runtime input. -/

/-- Source line 185: `searchOffsetX = imod(searchOffsetIndex, searchSize) * searchGap`. -/
def searchOffsetX (c : TrackerConsts) (j : ℕ) : ℕ := j % c.searchSize * c.searchGap

/-- Source line 186: `searchOffsetY = searchOffsetIndex / searchSize * searchGap`. -/
def searchOffsetY (c : TrackerConsts) (j : ℕ) : ℕ := j / c.searchSize * c.searchGap

/-- Source line 188: `sCenterX = int(getFeatures(featureIndex, 0) * markerScale)`. -/
def sCenterX (features : List (ℚ × ℚ)) (markerScale : ℚ) (i : ℕ) : ℤ :=
  glslInt ((features.getD i (0, 0)).1 * markerScale)

/-- Source line 189: `sCenterY = int(getFeatures(featureIndex, 1) * markerScale)`. -/
def sCenterY (features : List (ℚ × ℚ)) (markerScale : ℚ) (i : ℕ) : ℤ :=
  glslInt ((features.getD i (0, 0)).2 * markerScale)

/-- Source line 191: `sx = sCenterX + searchOffsetX - searchOneSize`. -/
def candX (c : TrackerConsts) (features : List (ℚ × ℚ)) (markerScale : ℚ) (i j : ℕ) : ℤ :=
  sCenterX features markerScale i + searchOffsetX c j - c.searchOneSize

/-- Source line 192: `sy = sCenterY + searchOffsetY - searchOneSize`. -/
def candY (c : TrackerConsts) (features : List (ℚ × ℚ)) (markerScale : ℚ) (i j : ℕ) : ℤ :=
  sCenterY features markerScale i + searchOffsetY c j - c.searchOneSize

/-- Source line 194: the no-valid-region test of kernel 1 (margin
`templateOneSize` against the generated-in target dimensions). -/
def matchingOOB (c : TrackerConsts) (W H : ℕ) (features : List (ℚ × ℚ))
    (markerScale : ℚ) (i j : ℕ) : Prop :=
  candX c features markerScale i j < (c.templateOneSize : ℤ) ∨
    (W : ℤ) - c.templateOneSize ≤ candX c features markerScale i j ∨
    candY c features markerScale i j < (c.templateOneSize : ℤ) ∨
    (H : ℤ) - c.templateOneSize ≤ candY c features markerScale i j

instance (c : TrackerConsts) (W H : ℕ) (features : List (ℚ × ℚ))
    (markerScale : ℚ) (i j : ℕ) : Decidable (matchingOOB c W H features markerScale i j) := by
  unfold matchingOOB; infer_instance

/-- The dense template window (source lines 204-205): offsets
`(templateOffsetY, templateOffsetX)` both ranging over `templateSize`. -/
def windowIndex (c : TrackerConsts) : Finset (ℕ × ℕ) :=
  Finset.range c.templateSize ×ˢ Finset.range c.templateSize

/-- Source lines 206-213: the marker (template) pixel read for template
offset `(ty, tx)`; `markerPixelIndex = fy2 * markerWidth + fx2` with
`fx2 = sCenterX + templateOffsetX - templateOneSize` (and similarly `fy2`). -/
def markerPixelAt (c : TrackerConsts) (markerPixels : List ℚ) (markerWidth : ℕ)
    (features : List (ℚ × ℚ)) (markerScale : ℚ) (i : ℕ) (q : ℕ × ℕ) : ℚ :=
  fetch1D markerPixels
    ((sCenterY features markerScale i + q.1 - c.templateOneSize) * markerWidth +
      (sCenterX features markerScale i + q.2 - c.templateOneSize))

/-- Source lines 209-214: the rectified-image pixel read for template offset
`(ty, tx)`: `getTargetPixels(sy + ty - templateOneSize, sx + tx - templateOneSize)`. -/
def targetPixelAt (c : TrackerConsts) (target : List (List ℚ)) (features : List (ℚ × ℚ))
    (markerScale : ℚ) (i j : ℕ) (q : ℕ × ℕ) : ℚ :=
  fetch2D target (candY c features markerScale i j + q.1 - c.templateOneSize)
    (candX c features markerScale i j + q.2 - c.templateOneSize)

/-- Source line 218: `sumPoint`. -/
def sumPoint (c : TrackerConsts) (target : List (List ℚ)) (features : List (ℚ × ℚ))
    (markerScale : ℚ) (i j : ℕ) : ℚ :=
  ∑ q ∈ windowIndex c, targetPixelAt c target features markerScale i j q

/-- Source line 219: `sumPointSquare`. -/
def sumPointSquare (c : TrackerConsts) (target : List (List ℚ)) (features : List (ℚ × ℚ))
    (markerScale : ℚ) (i j : ℕ) : ℚ :=
  ∑ q ∈ windowIndex c, targetPixelAt c target features markerScale i j q *
    targetPixelAt c target features markerScale i j q

/-- Source line 216: `sumTemplate`. -/
def sumTemplate (c : TrackerConsts) (markerPixels : List ℚ) (markerWidth : ℕ)
    (features : List (ℚ × ℚ)) (markerScale : ℚ) (i : ℕ) : ℚ :=
  ∑ q ∈ windowIndex c, markerPixelAt c markerPixels markerWidth features markerScale i q

/-- Source line 217: `sumTemplateSquare`. -/
def sumTemplateSquare (c : TrackerConsts) (markerPixels : List ℚ) (markerWidth : ℕ)
    (features : List (ℚ × ℚ)) (markerScale : ℚ) (i : ℕ) : ℚ :=
  ∑ q ∈ windowIndex c, markerPixelAt c markerPixels markerWidth features markerScale i q *
    markerPixelAt c markerPixels markerWidth features markerScale i q

/-- Source line 220: `sumPointTemplate`. -/
def sumPointTemplate (c : TrackerConsts) (markerPixels : List ℚ) (markerWidth : ℕ)
    (target : List (List ℚ)) (features : List (ℚ × ℚ)) (markerScale : ℚ) (i j : ℕ) : ℚ :=
  ∑ q ∈ windowIndex c, targetPixelAt c target features markerScale i j q *
    markerPixelAt c markerPixels markerWidth features markerScale i q

/-- Source line 226: `count = templateSize * templateSize`. -/
def windowCount (c : TrackerConsts) : ℚ := (c.templateSize * c.templateSize : ℕ)

/-- Source line 227, the radicand of `pointVariance`:
`sumPointSquare - sumPoint / count * sumPoint`. -/
def pointVarSq (c : TrackerConsts) (target : List (List ℚ)) (features : List (ℚ × ℚ))
    (markerScale : ℚ) (i j : ℕ) : ℚ :=
  sumPointSquare c target features markerScale i j -
    sumPoint c target features markerScale i j / windowCount c *
      sumPoint c target features markerScale i j

/-- Source line 228, the radicand of `templateVariance`. -/
def templateVarSq (c : TrackerConsts) (markerPixels : List ℚ) (markerWidth : ℕ)
    (features : List (ℚ × ℚ)) (markerScale : ℚ) (i : ℕ) : ℚ :=
  sumTemplateSquare c markerPixels markerWidth features markerScale i -
    sumTemplate c markerPixels markerWidth features markerScale i / windowCount c *
      sumTemplate c markerPixels markerWidth features markerScale i

/-- Source line 227: `pointVariance = sqrt(sumPointSquare - sumPoint / count * sumPoint)`. -/
noncomputable def pointVariance (c : TrackerConsts) (target : List (List ℚ))
    (features : List (ℚ × ℚ)) (markerScale : ℚ) (i j : ℕ) : ℝ :=
  Real.sqrt ((pointVarSq c target features markerScale i j : ℚ) : ℝ)

/-- Source line 228: `templateVariance = sqrt(sumTemplateSquare - sumTemplate / count * sumTemplate)`. -/
noncomputable def templateVariance (c : TrackerConsts) (markerPixels : List ℚ)
    (markerWidth : ℕ) (features : List (ℚ × ℚ)) (markerScale : ℚ) (i : ℕ) : ℝ :=
  Real.sqrt ((templateVarSq c markerPixels markerWidth features markerScale i : ℚ) : ℝ)

/-- Source lines 230/232: the variance guard `0.0000001`. -/
def epsVar : ℚ := 1 / 10000000

/-- Source lines 236-237: the NCC numerator after the in-place update
`sumPointTemplate -= sumPoint / count * sumTemplate`. -/
def nccNum (c : TrackerConsts) (markerPixels : List ℚ) (markerWidth : ℕ)
    (target : List (List ℚ)) (features : List (ℚ × ℚ)) (markerScale : ℚ) (i j : ℕ) : ℚ :=
  sumPointTemplate c markerPixels markerWidth target features markerScale i j -
    sumPoint c target features markerScale i j / windowCount c *
      sumTemplate c markerPixels markerWidth features markerScale i

/-- Kernel 1 (source lines 171-243): similarity of feature slot `i` at
candidate offset index `j`, for a program generated with target dimensions
`W × H`.  Emits `-2` outside the valid region, `-3`/`-4` under the variance
guards, and the normalized cross-correlation otherwise. -/
noncomputable def kernel1Sim (c : TrackerConsts) (W H : ℕ) (features : List (ℚ × ℚ))
    (markerPixels : List ℚ) (props : ℕ × ℕ × ℚ) (target : List (List ℚ)) (i j : ℕ) : ℝ :=
  if matchingOOB c W H features props.2.2 i j then -2
  else if pointVariance c target features props.2.2 i j < ((epsVar : ℚ) : ℝ) then -3
  else if templateVariance c markerPixels props.1 features props.2.2 i < ((epsVar : ℚ) : ℝ) then -4
  else ((nccNum c markerPixels props.1 target features props.2.2 i j : ℚ) : ℝ) /
    pointVariance c target features props.2.2 i j /
    templateVariance c markerPixels props.1 features props.2.2 i

/-! ### `tf.argMax` (source line 297)

`allSims.argMax(1)` is a TensorFlow.js library operation; it returns, per
row, the index of the maximum element, ties taking the first occurrence. It
is embedded as the standard running-maximum scan. -/

/-- Running-maximum scan: `bestIdx`/`bestVal` are the current best, `pos` the
index of the list head. A later element replaces the best only when strictly
greater, so ties keep the earliest index. -/
def argMaxFrom {α : Type} [LinearOrder α] (bestIdx : ℕ) (bestVal : α) (pos : ℕ) :
    List α → ℕ × α
  | [] => (bestIdx, bestVal)
  | x :: xs =>
    if bestVal < x then argMaxFrom pos x (pos + 1) xs
    else argMaxFrom bestIdx bestVal (pos + 1) xs

/-- Index of the maximum element of a list (0 on the empty list), ties
resolved to the first occurrence. -/
def listArgMax {α : Type} [LinearOrder α] : List α → ℕ
  | [] => 0
  | x :: xs => (argMaxFrom 0 x 1 xs).1

/-! ### Kernels 2 and 3 (source lines 245-282) -/

/-- Kernel 2 (source lines 245-270): the refined matching point of feature
slot `i` given its winning flat index `maxIdx`, with
`searchOffsetIndex = imod(maxIndex, searchSize * searchSize)`; both
coordinates are `featurePoint + (searchOffset - searchOneSize) / markerScale`. -/
def kernel2Point (c : TrackerConsts) (featurePoints : List (ℚ × ℚ)) (markerScale : ℚ)
    (maxIdx : ℕ) (i : ℕ) : ℚ × ℚ :=
  ((featurePoints.getD i (0, 0)).1 +
      (((searchOffsetX c (maxIdx % c.searchNum) : ℤ) - c.searchOneSize : ℤ) : ℚ) / markerScale,
    (featurePoints.getD i (0, 0)).2 +
      (((searchOffsetY c (maxIdx % c.searchNum) : ℤ) - c.searchOneSize : ℤ) : ℚ) / markerScale)

/-- Kernel 3 (source lines 272-282): the winning similarity
`getSims(featureIndex, maxIndex)`. -/
def kernel3Sim (row : List ℝ) (maxIdx : ℕ) : ℝ := row.getD maxIdx 0

/-! ### `_computeMatching` (source lines 154-309) -/

/-- One row of the kernel-1 output tensor: the `searchSize * searchSize`
candidate similarities of feature slot `i`. -/
noncomputable def computeMatchingRow (c : TrackerConsts) (W H : ℕ) (features : List (ℚ × ℚ))
    (markerPixels : List ℚ) (props : ℕ × ℕ × ℚ) (target : List (List ℚ)) (i : ℕ) : List ℝ :=
  (List.range c.searchNum).map (kernel1Sim c W H features markerPixels props target i)

/-- `matchingPointsT` of `_computeMatching` (source lines 297-303): kernel 2
applied to the row-wise argmax of the kernel-1 output. -/
noncomputable def computeMatchingPoints (c : TrackerConsts) (W H : ℕ) (features : List (ℚ × ℚ))
    (markerPixels : List ℚ) (props : ℕ × ℕ × ℚ) (target : List (List ℚ)) : List (ℚ × ℚ) :=
  (List.range features.length).map fun i =>
    kernel2Point c features props.2.2
      (listArgMax (computeMatchingRow c W H features markerPixels props target i)) i

/-- `simT` of `_computeMatching` (source lines 297-305): kernel 3 applied to
the row-wise argmax of the kernel-1 output. -/
noncomputable def computeMatchingSim (c : TrackerConsts) (W H : ℕ) (features : List (ℚ × ℚ))
    (markerPixels : List ℚ) (props : ℕ × ℕ × ℚ) (target : List (List ℚ)) : List ℝ :=
  (List.range features.length).map fun i =>
    kernel3Sim (computeMatchingRow c W H features markerPixels props target i)
      (listArgMax (computeMatchingRow c W H features markerPixels props target i))

/-! ### `_buildAdjustedModelViewTransform` (source lines 370-387) and the
projection kernel (source lines 311-368) -/

/-- Source lines 370-387: every entry of the composed transform is divided by
`PRECISION_ADJUST` before being handed to the kernels. -/
def buildAdjustedModelViewTransform (M : Fin 3 → Fin 4 → ℚ) : Fin 3 → Fin 4 → ℚ :=
  fun i j => M i j / PRECISION_ADJUST

/-- Source lines 334-342: the projection kernel multiplies each fetched
transform entry back by `PRECISION_ADJUST` before use
(`m00 = getM(0, 0) * 1000.` and so on). -/
def projectionKernelM (Madj : Fin 3 → Fin 4 → ℚ) (i : Fin 3) (j : Fin 4) : ℚ :=
  Madj i j * PRECISION_ADJUST

/-- The projection kernel (source lines 326-367): backward-warps the camera
frame into the reference frame, nearest-neighbor (`floor(v + 0.5)`), output
shape `[markerHeight, markerWidth]`.  The kernel is cached per
`(width, height, scale)` key, and its generated code is a pure function of
that key, so no cache state is modelled for it. -/
def computeProjection (Madj : Fin 3 → Fin 4 → ℚ) (input : List (List ℚ))
    (markerWidth markerHeight : ℕ) (markerScale : ℚ) : List (List ℚ) :=
  (List.range markerHeight).map fun cy =>
    (List.range markerWidth).map fun cx =>
      let y : ℚ := (cy : ℚ) / markerScale
      let x : ℚ := (cx : ℚ) / markerScale
      let uz := x * projectionKernelM Madj 2 0 + y * projectionKernelM Madj 2 1 +
        projectionKernelM Madj 2 3
      let oneOverUz := 1 / uz
      let ux := x * projectionKernelM Madj 0 0 + y * projectionKernelM Madj 0 1 +
        projectionKernelM Madj 0 3
      let uy := x * projectionKernelM Madj 1 0 + y * projectionKernelM Madj 1 1 +
        projectionKernelM Madj 1 3
      fetch2D input ⌊uy * oneOverUz + 1 / 2⌋ ⌊ux * oneOverUz + 1 / 2⌋

/-! ### Estimation utilities (imported by the tracker from
`../estimation/utils`, not under the provided sources) -/

/-- Modelled from the spec: `buildModelViewProjectionTransform` of
`src/image-target/estimation/utils` is not under the provided sources.
Per §4.1 it composes the constant 3×4 camera projection with the per-call
model-pose matrix into a single 3×4 transform mapping reference-space
homogeneous coordinates to current-frame pixel coordinates; the 3×4 pose is
extended with the implicit homogeneous row `(0, 0, 0, 1)`. -/
def buildModelViewProjectionTransform (proj mv : Fin 3 → Fin 4 → ℚ) :
    Fin 3 → Fin 4 → ℚ :=
  fun i j => (∑ k : Fin 3, proj i k.castSucc * mv k j) +
    proj i 3 * (if j = 3 then 1 else 0)

/-- Modelled from the spec: `computeScreenCoordiate` of
`src/image-target/estimation/utils` is not under the provided sources.
Per §4.2/§4.4 it projects a reference-space point through the (unscaled)
composed transform with perspective division:
`uz = x*m20 + y*m21 + m23`, screen `= ((x*m00 + y*m01 + m03)/uz, (x*m10 + y*m11 + m13)/uz)`. -/
def computeScreenCoordiate (M : Fin 3 → Fin 4 → ℚ) (x y : ℚ) : ℚ × ℚ :=
  let uz := M 2 0 * x + M 2 1 * y + M 2 3
  ((M 0 0 * x + M 0 1 * y + M 0 3) / uz, (M 1 0 * x + M 1 1 * y + M 1 3) / uz)

/-! ### `track` (source lines 82-152) -/

/-- Fallback keyframe for an out-of-range target index (JavaScript would
throw there; every theorem instantiates valid indices). -/
def defaultKeyframe : ITrackingFeature := ⟨[], [], 0, 0, 0⟩

/-- The world coordinate emitted for an accepted slot `i` (source lines
129-133): the original, unrefined feature point over the keyframe scale,
with `z = 0`. -/
def worldCoordAt (kf : ITrackingFeature) (i : ℕ) : ℚ × ℚ × ℚ :=
  ((kf.points.getD i ⟨0, 0⟩).x / kf.scale, (kf.points.getD i ⟨0, 0⟩).y / kf.scale, 0)

/-- The screen coordinate emitted for an accepted slot `i` (source lines
122-128): the refined matching point projected through the unscaled composed
transform. -/
def screenCoordAt (M : Fin 3 → Fin 4 → ℚ) (matchingPoints : List (ℚ × ℚ)) (i : ℕ) : ℚ × ℚ :=
  computeScreenCoordiate M (matchingPoints.getD i (0, 0)).1 (matchingPoints.getD i (0, 0)).2

/-- The extraction loop of `track` (source lines 114-135): one pass over the
`matchingPoints.length` feature slots, pushing world coordinate, screen
coordinate and accepted index whenever
`sim[i] > AR2_SIM_THRESH && i < trackingFrame.points.length`. -/
noncomputable def trackExtract (c : TrackerConsts) (kf : ITrackingFeature)
    (M : Fin 3 → Fin 4 → ℚ) (matchingPoints : List (ℚ × ℚ)) (sim : List ℝ) :
    List (ℚ × ℚ × ℚ) × List (ℚ × ℚ) × List ℕ :=
  (List.range matchingPoints.length).foldl
    (fun acc i =>
      if (c.AR2_SIM_THRESH : ℝ) < sim.getD i 0 ∧ i < kf.points.length then
        (acc.1 ++ [worldCoordAt kf i], acc.2.1 ++ [screenCoordAt M matchingPoints i],
          acc.2.2 ++ [i])
      else acc)
    ([], [], [])

/-- The accepted slots of the extraction loop, in order: exactly the indices
`i < matchingPoints.length` with `sim[i] > AR2_SIM_THRESH` and
`i < points.length` (the `goodTrack` list of source lines 116-120). -/
noncomputable def trackGoodList (c : TrackerConsts) (kf : ITrackingFeature)
    (matchingPoints : List (ℚ × ℚ)) (sim : List ℝ) : List ℕ :=
  (List.range matchingPoints.length).filter fun i =>
    decide ((c.AR2_SIM_THRESH : ℝ) < sim.getD i 0 ∧ i < kf.points.length)

/-- The keyframe selected for a target (source line 113). -/
def trackKF (t : Tracker) (targetIndex : ℕ) : ITrackingFeature :=
  t.trackingKeyframeList.getD targetIndex defaultKeyframe

/-- The composed (unscaled) transform of a `track` call (source lines 85-88). -/
def trackMVP (t : Tracker) (lastMV : Fin 3 → Fin 4 → ℚ) : Fin 3 → Fin 4 → ℚ :=
  buildModelViewProjectionTransform t.projectionTransform lastMV

/-- The rectified (projected) image of a `track` call (source lines 97-101). -/
def trackProjected (t : Tracker) (input : List (List ℚ)) (lastMV : Fin 3 → Fin 4 → ℚ)
    (targetIndex : ℕ) : List (List ℚ) :=
  computeProjection (buildAdjustedModelViewTransform (trackMVP t lastMV)) input
    (trackKF t targetIndex).width (trackKF t targetIndex).height (trackKF t targetIndex).scale

/-- The matching-kernel cache: the `(targetWidth, targetHeight)` pair the
single cached `computeMatching` program was generated with (`none` before
the first call; source lines 170 and 284-285 fill it exactly once, with no
per-target key). -/
def matchingBake (cache : Option (ℕ × ℕ)) (curW curH : ℕ) : ℕ × ℕ :=
  cache.getD (curW, curH)

/-- The matching points computed by a `track` call (source lines 103-110),
under matching-kernel cache state `cache`. -/
noncomputable def trackMatchingPoints (c : TrackerConsts) (t : Tracker)
    (cache : Option (ℕ × ℕ)) (input : List (List ℚ)) (lastMV : Fin 3 → Fin 4 → ℚ)
    (targetIndex : ℕ) : List (ℚ × ℚ) :=
  let baked := matchingBake cache (trackKF t targetIndex).width (trackKF t targetIndex).height
  computeMatchingPoints c baked.1 baked.2 (t.featurePointsList.getD targetIndex [])
    (t.imagePixelsList.getD targetIndex []) (t.imagePropertiesList.getD targetIndex (0, 0, 0))
    (trackProjected t input lastMV targetIndex)

/-- The per-slot best similarities computed by a `track` call (source lines
103-111), under matching-kernel cache state `cache`. -/
noncomputable def trackSims (c : TrackerConsts) (t : Tracker) (cache : Option (ℕ × ℕ))
    (input : List (List ℚ)) (lastMV : Fin 3 → Fin 4 → ℚ) (targetIndex : ℕ) : List ℝ :=
  let baked := matchingBake cache (trackKF t targetIndex).width (trackKF t targetIndex).height
  computeMatchingSim c baked.1 baked.2 (t.featurePointsList.getD targetIndex [])
    (t.imagePixelsList.getD targetIndex []) (t.imagePropertiesList.getD targetIndex (0, 0, 0))
    (trackProjected t input lastMV targetIndex)

/-- `track` (source lines 82-152): full per-frame pipeline for one target.
Returns `(worldCoords, screenCoords, goodTrack)` together with the
matching-kernel cache state after the call. -/
noncomputable def Tracker.track (c : TrackerConsts) (t : Tracker) (cache : Option (ℕ × ℕ))
    (input : List (List ℚ)) (lastMV : Fin 3 → Fin 4 → ℚ) (targetIndex : ℕ) :
    (List (ℚ × ℚ × ℚ) × List (ℚ × ℚ) × List ℕ) × Option (ℕ × ℕ) :=
  (trackExtract c (trackKF t targetIndex) (trackMVP t lastMV)
      (trackMatchingPoints c t cache input lastMV targetIndex)
      (trackSims c t cache input lastMV targetIndex),
    some (matchingBake cache (trackKF t targetIndex).width (trackKF t targetIndex).height))

/-! ### Helper lemmas: the running-maximum scan -/

theorem argMaxFrom_invariant {α : Type} [LinearOrder α] :
    ∀ (xs : List α) (b s : ℕ) (bv : α), b < s →
      (((argMaxFrom b bv s xs).1 = b ∧ (argMaxFrom b bv s xs).2 = bv) ∨
        ∃ j, ∃ h : j < xs.length, (argMaxFrom b bv s xs).1 = s + j ∧
          (argMaxFrom b bv s xs).2 = xs.get ⟨j, h⟩ ∧ bv < (argMaxFrom b bv s xs).2) ∧
      (bv ≤ (argMaxFrom b bv s xs).2 ∧
        ∀ j, ∀ h : j < xs.length, xs.get ⟨j, h⟩ ≤ (argMaxFrom b bv s xs).2) ∧
      (∀ j, ∀ h : j < xs.length, s + j < (argMaxFrom b bv s xs).1 →
        xs.get ⟨j, h⟩ < (argMaxFrom b bv s xs).2)
  | [], b, s, bv, _ => by
    refine ⟨Or.inl ⟨rfl, rfl⟩, ⟨le_refl _, ?_⟩, ?_⟩ <;> intro j h <;> exact absurd h (by simp)
  | x :: xs, b, s, bv, hbs => by
    by_cases hlt : bv < x
    · have ih := argMaxFrom_invariant xs s (s + 1) x (Nat.lt_succ_self s)
      rw [show argMaxFrom b bv s (x :: xs) = argMaxFrom s x (s + 1) xs from by
        simp [argMaxFrom, hlt]]
      obtain ⟨ih1, ⟨ih2a, ih2b⟩, ih3⟩ := ih
      refine ⟨?_, ⟨le_of_lt (lt_of_lt_of_le hlt ih2a), ?_⟩, ?_⟩
      · rcases ih1 with ⟨h1, h2⟩ | ⟨j, hj, h1, h2, h3⟩
        · exact Or.inr ⟨0, by simp, by simpa using h1, by simpa using h2, by
            rw [h2]; exact hlt⟩
        · exact Or.inr ⟨j + 1, by simpa using Nat.succ_lt_succ hj, by omega, by
            simpa using h2, lt_of_lt_of_le hlt ih2a⟩
      · intro j h
        match j with
        | 0 => simpa using ih2a
        | j + 1 => simpa using ih2b j (by simpa using h)
      · intro j h hlt2
        match j with
        | 0 =>
          rcases ih1 with ⟨h1, _⟩ | ⟨j', hj', _, _, h3⟩
          · omega
          · simpa using h3
        | j + 1 =>
          have := ih3 j (by simpa using h) (by omega)
          simpa using this
    · have ih := argMaxFrom_invariant xs b (s + 1) bv (Nat.lt_succ_of_lt hbs)
      rw [show argMaxFrom b bv s (x :: xs) = argMaxFrom b bv (s + 1) xs from by
        simp [argMaxFrom, hlt]]
      obtain ⟨ih1, ⟨ih2a, ih2b⟩, ih3⟩ := ih
      have hxbv : x ≤ bv := le_of_not_lt hlt
      refine ⟨?_, ⟨ih2a, ?_⟩, ?_⟩
      · rcases ih1 with ⟨h1, h2⟩ | ⟨j, hj, h1, h2, h3⟩
        · exact Or.inl ⟨h1, h2⟩
        · exact Or.inr ⟨j + 1, by simpa using Nat.succ_lt_succ hj, by omega, by
            simpa using h2, h3⟩
      · intro j h
        match j with
        | 0 => simpa using hxbv.trans ih2a
        | j + 1 => simpa using ih2b j (by simpa using h)
      · intro j h hlt2
        match j with
        | 0 =>
          rcases ih1 with ⟨h1, _⟩ | ⟨j', hj', _, _, h3⟩
          · omega
          · simpa using lt_of_le_of_lt hxbv h3
        | j + 1 =>
          have := ih3 j (by simpa using h) (by omega)
          simpa using this

/-- The scan returns an in-range index whose element is a maximum, and every
strictly earlier element is strictly smaller (ties keep the first index). -/
theorem listArgMax_spec {α : Type} [LinearOrder α] (l : List α) (hl : l ≠ []) :
    ∃ hm : listArgMax l < l.length,
      (∀ j, ∀ h : j < l.length, l.get ⟨j, h⟩ ≤ l.get ⟨listArgMax l, hm⟩) ∧
      ∀ j, ∀ h : j < l.length, j < listArgMax l → l.get ⟨j, h⟩ < l.get ⟨listArgMax l, hm⟩ := by
  match l, hl with
  | x :: xs, _ =>
    obtain ⟨ih1, ⟨ih2a, ih2b⟩, ih3⟩ := argMaxFrom_invariant xs 0 1 x Nat.one_pos
    have hval : ∀ hm : listArgMax (x :: xs) < (x :: xs).length,
        (x :: xs).get ⟨listArgMax (x :: xs), hm⟩ = (argMaxFrom 0 x 1 xs).2 := by
      intro hm
      rcases ih1 with ⟨h1, h2⟩ | ⟨j, hj, h1, h2, _⟩
      · simp only [listArgMax, h1]
        simpa using h2.symm
      · rw [Nat.add_comm] at h1
        simp only [listArgMax, h1]
        simpa using h2.symm
    have hm : listArgMax (x :: xs) < (x :: xs).length := by
      rcases ih1 with ⟨h1, _⟩ | ⟨j, hj, h1, _, _⟩
      · simp [listArgMax, h1]
      · simp only [listArgMax, h1, List.length_cons]
        omega
    refine ⟨hm, ?_, ?_⟩
    · intro j h
      rw [hval hm]
      match j with
      | 0 => simpa using ih2a
      | j + 1 => simpa using ih2b j (by simpa using h)
    · intro j h hj
      rw [hval hm]
      match j with
      | 0 =>
        rcases ih1 with ⟨h1, _⟩ | ⟨j', hj', h1, h2, h3⟩
        · simp only [listArgMax, h1] at hj
          omega
        · simpa using h3
      | j + 1 =>
        have hj2 : 1 + j < (argMaxFrom 0 x 1 xs).1 := by
          simp only [listArgMax] at hj
          omega
        simpa using ih3 j (by simpa using h) hj2

/-! ### Helper lemma: the extraction loop as filter-and-map -/

theorem foldl_push_characterization {A B : Type} (w : ℕ → A) (s : ℕ → B) (p : ℕ → Prop)
    [DecidablePred p] :
    ∀ (l : List ℕ) (a : List A) (b : List B) (g : List ℕ),
      l.foldl (fun acc i =>
          if p i then (acc.1 ++ [w i], acc.2.1 ++ [s i], acc.2.2 ++ [i]) else acc) (a, b, g) =
        (a ++ ((l.filter fun i => decide (p i)).map w),
          b ++ ((l.filter fun i => decide (p i)).map s),
          g ++ (l.filter fun i => decide (p i)))
  | [], a, b, g => by simp
  | i :: l, a, b, g => by
    by_cases h : p i
    · simp only [List.foldl_cons, if_pos h, foldl_push_characterization w s p l,
        List.filter_cons, decide_eq_true h, List.map_cons, List.append_assoc]
      simp
    · simp only [List.foldl_cons, if_neg h, foldl_push_characterization w s p l,
        List.filter_cons]
      simp [h]

/-- The extraction loop of `track` produces exactly the world coordinates,
screen coordinates and indices of the accepted slots, in slot order. -/
theorem trackExtract_eq (c : TrackerConsts) (kf : ITrackingFeature)
    (M : Fin 3 → Fin 4 → ℚ) (matchingPoints : List (ℚ × ℚ)) (sim : List ℝ) :
    trackExtract c kf M matchingPoints sim =
      ((trackGoodList c kf matchingPoints sim).map (worldCoordAt kf),
        (trackGoodList c kf matchingPoints sim).map (screenCoordAt M matchingPoints),
        trackGoodList c kf matchingPoints sim) := by
  unfold trackExtract trackGoodList
  rw [foldl_push_characterization (worldCoordAt kf) (screenCoordAt M matchingPoints)
    (fun i => (c.AR2_SIM_THRESH : ℝ) < sim.getD i 0 ∧ i < kf.points.length)]
  simp

/-! ### C6 and C10 -/

/-- C6: every entry of the composed 3×4 transform is divided by the constant
`PRECISION_ADJUST = 1000` before being handed to the kernels, and the
projection kernel multiplies each entry back by the same constant, so in
exact arithmetic the transform values the kernel uses equal the unscaled
composition. -/
theorem c6_precision_adjust_round_trip (M : Fin 3 → Fin 4 → ℚ) (i : Fin 3) (j : Fin 4) :
    PRECISION_ADJUST = 1000 ∧
      buildAdjustedModelViewTransform M i j = M i j / PRECISION_ADJUST ∧
      projectionKernelM (buildAdjustedModelViewTransform M) i j = M i j := by
  refine ⟨rfl, rfl, ?_⟩
  unfold projectionKernelM buildAdjustedModelViewTransform PRECISION_ADJUST
  rw [div_mul_cancel₀]
  norm_num

/-- C10: the constructor discards `markerDimensions`, `inputWidth` and
`inputHeight`, so two trackers built with identical remaining arguments agree
as constructed states, and `track` produces identical outputs for every
frame, prior pose, target index and cache state. -/
theorem c10_track_independent_of_discarded_args (c : TrackerConsts)
    (md₁ md₂ : List (ℚ × ℚ)) (tdl : List (List ITrackingFeature))
    (proj : Fin 3 → Fin 4 → ℚ) (w₁ h₁ w₂ h₂ : ℕ) (dbg : Bool)
    (cache : Option (ℕ × ℕ)) (input : List (List ℚ)) (lastMV : Fin 3 → Fin 4 → ℚ)
    (targetIndex : ℕ) :
    Tracker.make c md₁ tdl proj w₁ h₁ dbg = Tracker.make c md₂ tdl proj w₂ h₂ dbg ∧
      (Tracker.make c md₁ tdl proj w₁ h₁ dbg).map
          (fun t => Tracker.track c t cache input lastMV targetIndex) =
        (Tracker.make c md₂ tdl proj w₂ h₂ dbg).map
          (fun t => Tracker.track c t cache input lastMV targetIndex) :=
  ⟨rfl, rfl⟩

/-! ### C2 and C8 -/

/-- C2: `track` emits a correspondence for slot `i` exactly when
`i < points.length` and the slot's best similarity exceeds the threshold
(`trackGoodList` is, by definition, the in-order filter of the slots by
`sim[i] > AR2_SIM_THRESH ∧ i < points.length`); each emitted correspondence
pairs the original unrefined world coordinate
`(points[i].x/scale, points[i].y/scale, 0)` with the refined matching point
projected through the unscaled composed transform, and the two output lists
are index-aligned. -/
theorem c2_track_correspondence_characterization (c : TrackerConsts) (t : Tracker)
    (cache : Option (ℕ × ℕ)) (input : List (List ℚ)) (lastMV : Fin 3 → Fin 4 → ℚ)
    (targetIndex : ℕ) :
    (Tracker.track c t cache input lastMV targetIndex).1.1 =
        (trackGoodList c (trackKF t targetIndex)
            (trackMatchingPoints c t cache input lastMV targetIndex)
            (trackSims c t cache input lastMV targetIndex)).map
          (fun i => (((trackKF t targetIndex).points.getD i ⟨0, 0⟩).x / (trackKF t targetIndex).scale,
            ((trackKF t targetIndex).points.getD i ⟨0, 0⟩).y / (trackKF t targetIndex).scale,
            (0 : ℚ))) ∧
      (Tracker.track c t cache input lastMV targetIndex).1.2.1 =
        (trackGoodList c (trackKF t targetIndex)
            (trackMatchingPoints c t cache input lastMV targetIndex)
            (trackSims c t cache input lastMV targetIndex)).map
          (fun i => computeScreenCoordiate (trackMVP t lastMV)
            ((trackMatchingPoints c t cache input lastMV targetIndex).getD i (0, 0)).1
            ((trackMatchingPoints c t cache input lastMV targetIndex).getD i (0, 0)).2) ∧
      (Tracker.track c t cache input lastMV targetIndex).1.1.length =
        (Tracker.track c t cache input lastMV targetIndex).1.2.1.length := by
  unfold Tracker.track
  rw [trackExtract_eq]
  refine ⟨rfl, rfl, by simp⟩

/-- C8 (amended): after threshold filtering, the number of correspondences
returned by `track` equals the number of real slots (`i < points.length`)
whose best similarity exceeds the threshold — in particular at most
`points.length` — and padding slots (`i ≥ points.length`) never appear in
the accepted list. -/
theorem c8_correspondence_count (c : TrackerConsts) (t : Tracker)
    (cache : Option (ℕ × ℕ)) (input : List (List ℚ)) (lastMV : Fin 3 → Fin 4 → ℚ)
    (targetIndex : ℕ) :
    (Tracker.track c t cache input lastMV targetIndex).1.1.length =
        (trackGoodList c (trackKF t targetIndex)
          (trackMatchingPoints c t cache input lastMV targetIndex)
          (trackSims c t cache input lastMV targetIndex)).length ∧
      (∀ i ∈ trackGoodList c (trackKF t targetIndex)
          (trackMatchingPoints c t cache input lastMV targetIndex)
          (trackSims c t cache input lastMV targetIndex),
        i < (trackKF t targetIndex).points.length) ∧
      (Tracker.track c t cache input lastMV targetIndex).1.1.length ≤
        (trackKF t targetIndex).points.length := by
  have hmem : ∀ i ∈ trackGoodList c (trackKF t targetIndex)
      (trackMatchingPoints c t cache input lastMV targetIndex)
      (trackSims c t cache input lastMV targetIndex),
      i < (trackKF t targetIndex).points.length := by
    intro i hi
    unfold trackGoodList at hi
    have := List.of_mem_filter hi
    simp only [decide_eq_true_eq] at this
    exact this.2
  have hlen : (Tracker.track c t cache input lastMV targetIndex).1.1.length =
      (trackGoodList c (trackKF t targetIndex)
        (trackMatchingPoints c t cache input lastMV targetIndex)
        (trackSims c t cache input lastMV targetIndex)).length := by
    unfold Tracker.track
    rw [trackExtract_eq]
    simp
  refine ⟨hlen, hmem, ?_⟩
  rw [hlen]
  have hnodup : (trackGoodList c (trackKF t targetIndex)
      (trackMatchingPoints c t cache input lastMV targetIndex)
      (trackSims c t cache input lastMV targetIndex)).Nodup := by
    unfold trackGoodList
    exact List.Nodup.filter _ (List.nodup_range _)
  have hsub : trackGoodList c (trackKF t targetIndex)
      (trackMatchingPoints c t cache input lastMV targetIndex)
      (trackSims c t cache input lastMV targetIndex) ⊆
      List.range (trackKF t targetIndex).points.length := by
    intro i hi
    exact List.mem_range.mpr (hmem i hi)
  have := List.Subperm.length_le (List.subperm_of_subset hnodup hsub)
  simpa using this

/-! ### C4 and C5 -/

theorem succ_mod_of_ne_zero {j N : ℕ} (h : (j + 1) % N ≠ 0) : (j + 1) % N = j % N + 1 := by
  rcases Nat.eq_zero_or_pos N with h0 | hpos
  · subst h0; simp
  · have hdm := Nat.div_add_mod j N
    rcases Nat.lt_or_ge (j % N + 1) N with hc | hc
    · have hj : j + 1 = N * (j / N) + (j % N + 1) := by omega
      rw [hj, Nat.mul_add_mod, Nat.mod_eq_of_lt hc]
    · have hr : j % N < N := Nat.mod_lt _ hpos
      have hj : j + 1 = N * (j / N + 1) := by rw [Nat.mul_succ]; omega
      exact absurd (by rw [hj, Nat.mul_mod_right]) h

theorem getD_map_range {β : Type} (n : ℕ) (f : ℕ → β) (i : ℕ) (hi : i < n) (d : β) :
    ((List.range n).map f).getD i d = f i := by
  rw [List.getD_eq_getElem _ _ (by simpa using hi)]
  simp

/-- C4: per feature slot the matching kernel evaluates exactly
`(2·searchOneSize+1)²` candidate offsets; along each axis the examined
candidates are exactly `sCenter - searchOneSize + k·searchGap` for
`k < 2·searchOneSize+1`, adjacent candidates in a row step by `searchGap`,
and the examined positions span `2·(searchOneSize·searchGap)+1` pixels
around the feature's predicted scaled location. -/
theorem c4_search_grid_structure (c : TrackerConsts) (W H : ℕ) (features : List (ℚ × ℚ))
    (markerPixels : List ℚ) (props : ℕ × ℕ × ℚ) (target : List (List ℚ)) (i : ℕ) :
    (computeMatchingRow c W H features markerPixels props target i).length =
        (2 * c.searchOneSize + 1) ^ 2 ∧
      (∀ j, j < c.searchNum → ∃ k, k < 2 * c.searchOneSize + 1 ∧
        candX c features props.2.2 i j =
          sCenterX features props.2.2 i - c.searchOneSize + (k : ℤ) * c.searchGap) ∧
      (∀ k, k < 2 * c.searchOneSize + 1 → ∃ j, j < c.searchNum ∧
        candX c features props.2.2 i j =
          sCenterX features props.2.2 i - c.searchOneSize + (k : ℤ) * c.searchGap) ∧
      (∀ j, j < c.searchNum → ∃ k, k < 2 * c.searchOneSize + 1 ∧
        candY c features props.2.2 i j =
          sCenterY features props.2.2 i - c.searchOneSize + (k : ℤ) * c.searchGap) ∧
      (∀ k, k < 2 * c.searchOneSize + 1 → ∃ j, j < c.searchNum ∧
        candY c features props.2.2 i j =
          sCenterY features props.2.2 i - c.searchOneSize + (k : ℤ) * c.searchGap) ∧
      (∀ j, (j + 1) % c.searchSize ≠ 0 →
        candX c features props.2.2 i (j + 1) = candX c features props.2.2 i j + c.searchGap) ∧
      (∀ j, j < c.searchNum →
        sCenterX features props.2.2 i - c.searchOneSize ≤ candX c features props.2.2 i j ∧
          candX c features props.2.2 i j ≤ sCenterX features props.2.2 i - c.searchOneSize +
            2 * c.searchOneSize * c.searchGap) ∧
      (sCenterX features props.2.2 i - c.searchOneSize + 2 * c.searchOneSize * c.searchGap) -
          (sCenterX features props.2.2 i - c.searchOneSize) + 1 =
        2 * (c.searchOneSize * c.searchGap) + 1 := by
  have hN : c.searchSize = 2 * c.searchOneSize + 1 := by
    unfold TrackerConsts.searchSize; ring
  have hNpos : 0 < c.searchSize := by omega
  refine ⟨?_, ?_, ?_, ?_, ?_, ?_, ?_, by ring⟩
  · unfold computeMatchingRow TrackerConsts.searchNum
    simp [hN]
    ring
  · intro j _
    refine ⟨j % c.searchSize, by rw [← hN]; exact Nat.mod_lt _ hNpos, ?_⟩
    unfold candX searchOffsetX
    push_cast
    ring
  · intro k hk
    refine ⟨k, lt_of_lt_of_le (hN ▸ hk) (Nat.le_mul_of_pos_left _ hNpos), ?_⟩
    unfold candX searchOffsetX
    rw [Nat.mod_eq_of_lt (hN ▸ hk)]
    push_cast
    ring
  · intro j hj
    refine ⟨j / c.searchSize, by
      rw [← hN]
      exact (Nat.div_lt_iff_lt_mul hNpos).mpr hj, ?_⟩
    unfold candY searchOffsetY
    push_cast
    ring
  · intro k hk
    refine ⟨k * c.searchSize, by
      unfold TrackerConsts.searchNum
      exact Nat.mul_lt_mul_of_lt_of_le (hN ▸ hk) le_rfl hNpos, ?_⟩
    unfold candY searchOffsetY
    rw [Nat.mul_div_cancel _ hNpos]
    push_cast
    ring
  · intro j hj
    unfold candX searchOffsetX
    rw [succ_mod_of_ne_zero hj]
    push_cast
    ring
  · intro j _
    have hm : j % c.searchSize < c.searchSize := Nat.mod_lt _ hNpos
    have h2 : j % c.searchSize * c.searchGap ≤ 2 * c.searchOneSize * c.searchGap :=
      Nat.mul_le_mul_right _ (by omega)
    unfold candX searchOffsetX
    constructor
    · have : 0 ≤ ((j % c.searchSize * c.searchGap : ℕ) : ℤ) := Int.natCast_nonneg _
      omega
    · zify at h2
      push_cast
      linarith

/-- C5: when the search stride is 1, the refined match location returned by
the matching stage equals, per axis,
`predicted + k·searchGap/scale` for an integer `k` with
`-searchOneSize ≤ k ≤ searchOneSize`. -/
theorem c5_refined_location_quantization (c : TrackerConsts)
    (hgap : c.AR2_SEARCH_GAP = 1) (W H : ℕ) (features : List (ℚ × ℚ))
    (markerPixels : List ℚ) (props : ℕ × ℕ × ℚ) (target : List (List ℚ)) (i : ℕ)
    (hi : i < features.length) :
    ∃ kx ky : ℤ, -(c.searchOneSize : ℤ) ≤ kx ∧ kx ≤ c.searchOneSize ∧
      -(c.searchOneSize : ℤ) ≤ ky ∧ ky ≤ c.searchOneSize ∧
      (computeMatchingPoints c W H features markerPixels props target).getD i (0, 0) =
        ((features.getD i (0, 0)).1 + (kx : ℚ) * (c.AR2_SEARCH_GAP : ℚ) / props.2.2,
          (features.getD i (0, 0)).2 + (ky : ℚ) * (c.AR2_SEARCH_GAP : ℚ) / props.2.2) := by
  have hN : c.searchSize = 2 * c.searchOneSize + 1 := by
    unfold TrackerConsts.searchSize; ring
  have hNpos : 0 < c.searchSize := by omega
  have hNum : 0 < c.searchNum := Nat.mul_pos hNpos hNpos
  unfold computeMatchingPoints
  rw [getD_map_range _ _ _ hi]
  set m := listArgMax (computeMatchingRow c W H features markerPixels props target i) with hm
  unfold kernel2Point
  set soi := m % c.searchNum with hsoi
  have hsoiN : soi < c.searchNum := Nat.mod_lt _ hNum
  have hxlt : soi % c.searchSize < c.searchSize := Nat.mod_lt _ hNpos
  have hylt : soi / c.searchSize < c.searchSize := (Nat.div_lt_iff_lt_mul hNpos).mpr hsoiN
  have hx0 : 0 ≤ ((soi % c.searchSize : ℕ) : ℤ) := Int.natCast_nonneg _
  have hy0 : 0 ≤ ((soi / c.searchSize : ℕ) : ℤ) := Int.natCast_nonneg _
  refine ⟨((soi % c.searchSize : ℕ) : ℤ) - c.searchOneSize,
    ((soi / c.searchSize : ℕ) : ℤ) - c.searchOneSize,
    by omega, by omega, by omega, by omega, ?_⟩
  have hsx : searchOffsetX c soi = soi % c.searchSize := by
    unfold searchOffsetX TrackerConsts.searchGap
    rw [hgap, Nat.mul_one]
  have hsy : searchOffsetY c soi = soi / c.searchSize := by
    unfold searchOffsetY TrackerConsts.searchGap
    rw [hgap, Nat.mul_one]
  have hgap2 : ((c.AR2_SEARCH_GAP : ℕ) : ℚ) = 1 := by rw [hgap]; norm_num
  rw [hsx, hsy, hgap2]
  refine Prod.ext ?_ ?_ <;> push_cast <;> ring

/-! ### C7 -/

/-- C7: for every feature slot the selected candidate attains the maximum
similarity over the full offset grid; when several candidates attain the
maximum, the first-occurring index in row-major offset order is selected, so
the selection is deterministic. The winning similarity is the `simT` entry
and the winning index is the one kernel 2 converts. -/
theorem c7_selection_max_first (c : TrackerConsts) (W H : ℕ) (features : List (ℚ × ℚ))
    (markerPixels : List ℚ) (props : ℕ × ℕ × ℚ) (target : List (List ℚ)) (i : ℕ)
    (hi : i < features.length) :
    listArgMax (computeMatchingRow c W H features markerPixels props target i) <
        (computeMatchingRow c W H features markerPixels props target i).length ∧
      (∀ j, j < (computeMatchingRow c W H features markerPixels props target i).length →
        (computeMatchingRow c W H features markerPixels props target i).getD j 0 ≤
          (computeMatchingRow c W H features markerPixels props target i).getD
            (listArgMax (computeMatchingRow c W H features markerPixels props target i)) 0) ∧
      (∀ j, j < listArgMax (computeMatchingRow c W H features markerPixels props target i) →
        (computeMatchingRow c W H features markerPixels props target i).getD j 0 <
          (computeMatchingRow c W H features markerPixels props target i).getD
            (listArgMax (computeMatchingRow c W H features markerPixels props target i)) 0) ∧
      (computeMatchingSim c W H features markerPixels props target).getD i 0 =
        (computeMatchingRow c W H features markerPixels props target i).getD
          (listArgMax (computeMatchingRow c W H features markerPixels props target i)) 0 ∧
      (computeMatchingPoints c W H features markerPixels props target).getD i (0, 0) =
        kernel2Point c features props.2.2
          (listArgMax (computeMatchingRow c W H features markerPixels props target i)) i := by
  have hrowlen : (computeMatchingRow c W H features markerPixels props target i).length =
      c.searchNum := by
    unfold computeMatchingRow
    simp
  have hNpos : 0 < c.searchSize := by
    unfold TrackerConsts.searchSize
    omega
  have hne : computeMatchingRow c W H features markerPixels props target i ≠ [] := by
    apply List.ne_nil_of_length_pos
    rw [hrowlen]
    exact Nat.mul_pos hNpos hNpos
  obtain ⟨hm, hmax, hfirst⟩ :=
    listArgMax_spec (computeMatchingRow c W H features markerPixels props target i) hne
  refine ⟨hm, ?_, ?_, ?_, ?_⟩
  · intro j hj
    rw [List.getD_eq_get _ _ hj, List.getD_eq_get _ _ hm]
    exact hmax j hj
  · intro j hj
    have hj2 : j < (computeMatchingRow c W H features markerPixels props target i).length :=
      lt_trans hj hm
    rw [List.getD_eq_get _ _ hj2, List.getD_eq_get _ _ hm]
    exact hfirst j hj2 hj
  · unfold computeMatchingSim
    rw [getD_map_range _ _ _ hi]
    rfl
  · unfold computeMatchingPoints
    rw [getD_map_range _ _ _ hi]

/-! ### C3: algebraic helpers for the NCC bound -/

theorem centered_sum_eq {ι : Type} (S : Finset ι) (f g : ι → ℚ)
    (hn : ((S.card : ℚ)) ≠ 0) :
    ∑ q ∈ S, f q * g q - (∑ q ∈ S, f q) / (S.card : ℚ) * (∑ q ∈ S, g q) =
      ∑ q ∈ S, ((f q - (∑ r ∈ S, f r) / (S.card : ℚ)) *
        (g q - (∑ r ∈ S, g r) / (S.card : ℚ))) := by
  have hexp : ∀ q ∈ S,
      (f q - (∑ r ∈ S, f r) / (S.card : ℚ)) * (g q - (∑ r ∈ S, g r) / (S.card : ℚ)) =
        f q * g q - ((∑ r ∈ S, g r) / (S.card : ℚ)) * f q -
          ((∑ r ∈ S, f r) / (S.card : ℚ)) * g q +
          (∑ r ∈ S, f r) / (S.card : ℚ) * ((∑ r ∈ S, g r) / (S.card : ℚ)) := by
    intro q _
    ring
  rw [Finset.sum_congr rfl hexp, Finset.sum_add_distrib, Finset.sum_sub_distrib,
    Finset.sum_sub_distrib, ← Finset.mul_sum, ← Finset.mul_sum, Finset.sum_const,
    nsmul_eq_mul]
  field_simp
  ring

theorem centered_cauchy_schwarz {ι : Type} (S : Finset ι) (f g : ι → ℚ)
    (hn : ((S.card : ℚ)) ≠ 0) :
    (∑ q ∈ S, f q * g q - (∑ q ∈ S, f q) / (S.card : ℚ) * (∑ q ∈ S, g q)) ^ 2 ≤
      (∑ q ∈ S, f q * f q - (∑ q ∈ S, f q) / (S.card : ℚ) * (∑ q ∈ S, f q)) *
        (∑ q ∈ S, g q * g q - (∑ q ∈ S, g q) / (S.card : ℚ) * (∑ q ∈ S, g q)) := by
  rw [centered_sum_eq S f g hn, centered_sum_eq S f f hn, centered_sum_eq S g g hn]
  have h := Finset.sum_mul_sq_le_sq_mul_sq S
    (fun q => f q - (∑ r ∈ S, f r) / (S.card : ℚ))
    (fun q => g q - (∑ r ∈ S, g r) / (S.card : ℚ))
  simpa only [pow_two] using h

/-- The window cardinality is the kernel's `count`. -/
theorem windowIndex_card (c : TrackerConsts) :
    (((windowIndex c).card : ℚ)) = windowCount c := by
  unfold windowIndex windowCount
  rw [Finset.card_product]
  simp

/-- Cauchy-Schwarz for the kernel's accumulated sums: the squared NCC
numerator is bounded by the product of the two variance radicands. -/
theorem nccNum_sq_le (c : TrackerConsts) (markerPixels : List ℚ) (markerWidth : ℕ)
    (target : List (List ℚ)) (features : List (ℚ × ℚ)) (markerScale : ℚ) (i j : ℕ) :
    nccNum c markerPixels markerWidth target features markerScale i j ^ 2 ≤
      pointVarSq c target features markerScale i j *
        templateVarSq c markerPixels markerWidth features markerScale i := by
  have hcard : (((windowIndex c).card : ℚ)) = windowCount c := windowIndex_card c
  have hwc : windowCount c ≠ 0 := by
    unfold windowCount TrackerConsts.templateSize
    positivity
  have hn : ((windowIndex c).card : ℚ) ≠ 0 := by rw [hcard]; exact hwc
  have h := centered_cauchy_schwarz (windowIndex c)
    (targetPixelAt c target features markerScale i j)
    (markerPixelAt c markerPixels markerWidth features markerScale i) hn
  rw [hcard] at h
  unfold nccNum pointVarSq templateVarSq sumPointTemplate sumPoint sumTemplate
    sumPointSquare sumTemplateSquare
  exact h

/-- C3: the matching kernel emits `-2` exactly off the valid interior
(margin `templateOneSize`); otherwise `-3` exactly when the point variance
is below the `1e-7` guard; otherwise `-4` exactly when the template variance
is below the guard; otherwise the NCC value, which lies in `[-1, 1]`.
A slot whose best similarity is sentinel-valued is never accepted by the
extractor when the threshold is at least `-2` (it exceeds the sentinel
range). -/
theorem c3_matching_sentinels (c : TrackerConsts) (W H : ℕ) (features : List (ℚ × ℚ))
    (markerPixels : List ℚ) (props : ℕ × ℕ × ℚ) (target : List (List ℚ)) (i j : ℕ) :
    (kernel1Sim c W H features markerPixels props target i j = -2 ↔
        matchingOOB c W H features props.2.2 i j) ∧
      (¬ matchingOOB c W H features props.2.2 i j →
        (kernel1Sim c W H features markerPixels props target i j = -3 ↔
          pointVariance c target features props.2.2 i j < ((epsVar : ℚ) : ℝ))) ∧
      (¬ matchingOOB c W H features props.2.2 i j →
        ¬ pointVariance c target features props.2.2 i j < ((epsVar : ℚ) : ℝ) →
        (kernel1Sim c W H features markerPixels props target i j = -4 ↔
          templateVariance c markerPixels props.1 features props.2.2 i < ((epsVar : ℚ) : ℝ))) ∧
      (¬ matchingOOB c W H features props.2.2 i j →
        ¬ pointVariance c target features props.2.2 i j < ((epsVar : ℚ) : ℝ) →
        ¬ templateVariance c markerPixels props.1 features props.2.2 i < ((epsVar : ℚ) : ℝ) →
        kernel1Sim c W H features markerPixels props target i j =
            ((nccNum c markerPixels props.1 target features props.2.2 i j : ℚ) : ℝ) /
              pointVariance c target features props.2.2 i j /
              templateVariance c markerPixels props.1 features props.2.2 i ∧
          -1 ≤ kernel1Sim c W H features markerPixels props target i j ∧
          kernel1Sim c W H features markerPixels props target i j ≤ 1) ∧
      (∀ (kf : ITrackingFeature) (mps : List (ℚ × ℚ)) (sims : List ℝ) (i₀ : ℕ),
        (sims.getD i₀ 0 = -2 ∨ sims.getD i₀ 0 = -3 ∨ sims.getD i₀ 0 = -4) →
        (-2 : ℚ) ≤ c.AR2_SIM_THRESH → i₀ ∉ trackGoodList c kf mps sims) := by
  have heps : (0 : ℝ) < ((epsVar : ℚ) : ℝ) := by
    norm_num [epsVar]
  -- the NCC value is bounded by 1 in absolute value whenever both variance
  -- guards pass
  have hbound : ¬ pointVariance c target features props.2.2 i j < ((epsVar : ℚ) : ℝ) →
      ¬ templateVariance c markerPixels props.1 features props.2.2 i < ((epsVar : ℚ) : ℝ) →
      |((nccNum c markerPixels props.1 target features props.2.2 i j : ℚ) : ℝ) /
          pointVariance c target features props.2.2 i j /
          templateVariance c markerPixels props.1 features props.2.2 i| ≤ 1 := by
    intro hP hT
    have hpv : (0 : ℝ) < pointVariance c target features props.2.2 i j :=
      lt_of_lt_of_le heps (not_lt.mp hP)
    have htv : (0 : ℝ) < templateVariance c markerPixels props.1 features props.2.2 i :=
      lt_of_lt_of_le heps (not_lt.mp hT)
    have hPpos : (0 : ℝ) < ((pointVarSq c target features props.2.2 i j : ℚ) : ℝ) := by
      have := hpv
      unfold pointVariance at this
      exact Real.sqrt_pos.mp this
    have hCS := nccNum_sq_le c markerPixels props.1 target features props.2.2 i j
    have hCSR : (((nccNum c markerPixels props.1 target features props.2.2 i j : ℚ) : ℝ)) ^ 2 ≤
        ((pointVarSq c target features props.2.2 i j : ℚ) : ℝ) *
          ((templateVarSq c markerPixels props.1 features props.2.2 i : ℚ) : ℝ) := by
      exact_mod_cast hCS
    have habs : |((nccNum c markerPixels props.1 target features props.2.2 i j : ℚ) : ℝ)| ≤
        pointVariance c target features props.2.2 i j *
          templateVariance c markerPixels props.1 features props.2.2 i := by
      have h1 := Real.sqrt_le_sqrt hCSR
      rw [Real.sqrt_sq_eq_abs] at h1
      rw [Real.sqrt_mul (le_of_lt hPpos)] at h1
      exact h1
    rw [div_div, abs_div, abs_of_pos (mul_pos hpv htv)]
    rw [div_le_one (mul_pos hpv htv)]
    exact habs
  refine ⟨?_, ?_, ?_, ?_, ?_⟩
  · constructor
    · intro hr
      by_contra hOOB
      unfold kernel1Sim at hr
      rw [if_neg hOOB] at hr
      by_cases hP : pointVariance c target features props.2.2 i j < ((epsVar : ℚ) : ℝ)
      · rw [if_pos hP] at hr
        norm_num at hr
      · rw [if_neg hP] at hr
        by_cases hT : templateVariance c markerPixels props.1 features props.2.2 i <
            ((epsVar : ℚ) : ℝ)
        · rw [if_pos hT] at hr
          norm_num at hr
        · rw [if_neg hT] at hr
          have := hbound hP hT
          rw [hr] at this
          norm_num at this
    · intro hOOB
      unfold kernel1Sim
      rw [if_pos hOOB]
  · intro hOOB
    constructor
    · intro hr
      by_contra hP
      unfold kernel1Sim at hr
      rw [if_neg hOOB, if_neg hP] at hr
      by_cases hT : templateVariance c markerPixels props.1 features props.2.2 i <
          ((epsVar : ℚ) : ℝ)
      · rw [if_pos hT] at hr
        norm_num at hr
      · rw [if_neg hT] at hr
        have := hbound hP hT
        rw [hr] at this
        norm_num at this
    · intro hP
      unfold kernel1Sim
      rw [if_neg hOOB, if_pos hP]
  · intro hOOB hP
    constructor
    · intro hr
      by_contra hT
      unfold kernel1Sim at hr
      rw [if_neg hOOB, if_neg hP, if_neg hT] at hr
      have := hbound hP hT
      rw [hr] at this
      norm_num at this
    · intro hT
      unfold kernel1Sim
      rw [if_neg hOOB, if_neg hP, if_pos hT]
  · intro hOOB hP hT
    have hval : kernel1Sim c W H features markerPixels props target i j =
        ((nccNum c markerPixels props.1 target features props.2.2 i j : ℚ) : ℝ) /
          pointVariance c target features props.2.2 i j /
          templateVariance c markerPixels props.1 features props.2.2 i := by
      unfold kernel1Sim
      rw [if_neg hOOB, if_neg hP, if_neg hT]
    have := abs_le.mp (hbound hP hT)
    exact ⟨hval, by rw [hval]; exact this.1, by rw [hval]; exact this.2⟩
  · intro kf mps sims i₀ hsent hthr hmem
    unfold trackGoodList at hmem
    have := List.of_mem_filter hmem
    simp only [decide_eq_true_eq] at this
    have hlt : (c.AR2_SIM_THRESH : ℝ) < sims.getD i₀ 0 := this.1
    have hthrR : (-2 : ℝ) ≤ (c.AR2_SIM_THRESH : ℝ) := by exact_mod_cast hthr
    rcases hsent with h | h | h <;> rw [h] at hlt <;> linarith

/-! ### C1 -/

/-- C1 (amended): the single cached matching-kernel definition is correct
for a target exactly as far as its generated-in dimensions go — its output
depends on the target only through the baked `targetWidth`/`targetHeight`
(besides the runtime tensors), so it computes the same similarities and
matching points as a kernel specialized to any target whose projected-image
dimensions equal those at first compilation. -/
theorem c1_cached_kernel_correct_same_dims (c : TrackerConsts) (W₀ H₀ W H : ℕ)
    (hW : W = W₀) (hH : H = H₀) (features : List (ℚ × ℚ)) (markerPixels : List ℚ)
    (props : ℕ × ℕ × ℚ) (target : List (List ℚ)) (i j : ℕ) :
    kernel1Sim c W₀ H₀ features markerPixels props target i j =
        kernel1Sim c W H features markerPixels props target i j ∧
      computeMatchingSim c W₀ H₀ features markerPixels props target =
        computeMatchingSim c W H features markerPixels props target ∧
      computeMatchingPoints c W₀ H₀ features markerPixels props target =
        computeMatchingPoints c W H features markerPixels props target := by
  subst hW
  subst hH
  exact ⟨rfl, rfl, rfl⟩

/-- Instantiation of the dimension-compatibility statement at a concrete
configuration. -/
theorem c1_witness :
    kernel1Sim ⟨1, 1, 1, 1, 4 / 5, 0⟩ 8 8 [((4 : ℚ), (4 : ℚ))] [] (8, 8, 1) [] 0 4 =
        kernel1Sim ⟨1, 1, 1, 1, 4 / 5, 0⟩ 8 8 [((4 : ℚ), (4 : ℚ))] [] (8, 8, 1) [] 0 4 ∧
      computeMatchingSim ⟨1, 1, 1, 1, 4 / 5, 0⟩ 8 8 [((4 : ℚ), (4 : ℚ))] [] (8, 8, 1) [] =
        computeMatchingSim ⟨1, 1, 1, 1, 4 / 5, 0⟩ 8 8 [((4 : ℚ), (4 : ℚ))] [] (8, 8, 1) [] ∧
      computeMatchingPoints ⟨1, 1, 1, 1, 4 / 5, 0⟩ 8 8 [((4 : ℚ), (4 : ℚ))] [] (8, 8, 1) [] =
        computeMatchingPoints ⟨1, 1, 1, 1, 4 / 5, 0⟩ 8 8 [((4 : ℚ), (4 : ℚ))] [] (8, 8, 1) [] :=
  c1_cached_kernel_correct_same_dims ⟨1, 1, 1, 1, 4 / 5, 0⟩ 8 8 8 8 rfl rfl
    [((4 : ℚ), (4 : ℚ))] [] (8, 8, 1) [] 0 4

/-- A small constant record for the counterexamples: template half size 1,
template gap 1, search size 1, search gap 1, threshold 4/5, keyframe 0. -/
def cEx1 : TrackerConsts := ⟨1, 1, 1, 1, 4 / 5, 0⟩

/-- One feature at scaled center `(4, 4)`. -/
def featsEx1 : List (ℚ × ℚ) := [(4, 4)]

/-- An 8×8 all-zero rectified image. -/
def targetEx1 : List (List ℚ) := List.replicate 8 (List.replicate 8 0)

/-- A flat 8×8 all-zero marker buffer. -/
def markerEx1 : List ℚ := List.replicate 64 0

/-- Marker properties of an 8×8, scale-1 target. -/
def propsEx1 : ℕ × ℕ × ℚ := (8, 8, 1)

/-- C1 is refuted on the code: the matching-kernel source bakes in the
target dimensions (`${targetWidth}`, `${targetHeight}` in its bounds check)
although it is cached without any per-target key, so the kernel cached from
a 4×4 target applied to an 8×8 target disagrees with the kernel specialized
to the 8×8 target: at scaled center `(4, 4)` and offset index 4 the cached
kernel emits the out-of-bounds sentinel `-2` while the specialized kernel
emits the zero-variance sentinel `-3`. -/
theorem c1_counterexample_cached_kernel_differs :
    kernel1Sim cEx1 4 4 featsEx1 markerEx1 propsEx1 targetEx1 0 4 = -2 ∧
      kernel1Sim cEx1 8 8 featsEx1 markerEx1 propsEx1 targetEx1 0 4 = -3 ∧
      kernel1Sim cEx1 4 4 featsEx1 markerEx1 propsEx1 targetEx1 0 4 ≠
        kernel1Sim cEx1 8 8 featsEx1 markerEx1 propsEx1 targetEx1 0 4 := by
  have hms : propsEx1.2.2 = 1 := rfl
  have hsc : sCenterX featsEx1 propsEx1.2.2 0 = 4 := by
    rw [hms]
    norm_num [sCenterX, glslInt, featsEx1]
  have hscy : sCenterY featsEx1 propsEx1.2.2 0 = 4 := by
    rw [hms]
    norm_num [sCenterY, glslInt, featsEx1]
  have hcx : candX cEx1 featsEx1 propsEx1.2.2 0 4 = 4 := by
    unfold candX
    rw [hsc]
    norm_num [show searchOffsetX cEx1 4 = 1 from rfl, show cEx1.searchOneSize = 1 from rfl]
  have hcy : candY cEx1 featsEx1 propsEx1.2.2 0 4 = 4 := by
    unfold candY
    rw [hscy]
    norm_num [show searchOffsetY cEx1 4 = 1 from rfl, show cEx1.searchOneSize = 1 from rfl]
  have htos : cEx1.templateOneSize = 1 := rfl
  have hOOB1 : matchingOOB cEx1 4 4 featsEx1 propsEx1.2.2 0 4 := by
    unfold matchingOOB
    rw [hcx, hcy, htos]
    norm_num
  have hOOB2 : ¬ matchingOOB cEx1 8 8 featsEx1 propsEx1.2.2 0 4 := by
    unfold matchingOOB
    rw [hcx, hcy, htos]
    norm_num
  have hz : ∀ y x : ℤ, fetch2D targetEx1 y x = 0 := by
    intro y x
    unfold fetch2D targetEx1
    split
    · simp only [List.getD_eq_getD_get?, List.get?_eq_getElem?, List.getElem?_replicate]
      split
      · simp only [Option.getD_some, List.getElem?_replicate]
        split <;> rfl
      · rfl
    · rfl
  have hpv : pointVarSq cEx1 targetEx1 featsEx1 propsEx1.2.2 0 4 = 0 := by
    unfold pointVarSq sumPointSquare sumPoint targetPixelAt
    simp [hz]
  have hpvR : pointVariance cEx1 targetEx1 featsEx1 propsEx1.2.2 0 4 = 0 := by
    unfold pointVariance
    rw [hpv]
    simp
  have h1 : kernel1Sim cEx1 4 4 featsEx1 markerEx1 propsEx1 targetEx1 0 4 = -2 := by
    unfold kernel1Sim
    rw [if_pos hOOB1]
  have h2 : kernel1Sim cEx1 8 8 featsEx1 markerEx1 propsEx1 targetEx1 0 4 = -3 := by
    unfold kernel1Sim
    rw [if_neg hOOB2, if_pos (by rw [hpvR]; norm_num [epsVar])]
  refine ⟨h1, h2, ?_⟩
  rw [h1, h2]
  norm_num

/-! ### C9 -/

theorem mapM_get?_eq_map {γ : Type} (k : ℕ) (d : γ) :
    ∀ (tdl : List (List γ)), (∀ l ∈ tdl, k < l.length) →
      tdl.mapM (fun lst : List γ => lst.get? k) =
        some (tdl.map fun lst => lst.getD k d)
  | [], _ => rfl
  | head :: tail, hkf => by
    rw [List.mapM_cons]
    have hlt : k < head.length := hkf head (List.mem_cons_self _ _)
    have hh : head.get? k = some (head.getD k d) := by
      rw [List.get?_eq_getElem?, List.getElem?_eq_getElem hlt,
        List.getD_eq_getElem _ _ hlt]
    rw [hh, mapM_get?_eq_map k d tail fun l hl => hkf l (List.mem_cons_of_mem _ hl)]
    rfl

/-- C9 (amended): construction does not validate its configuration. It fails
only on the two error paths the underlying calls force — a missing keyframe
record (a generic type error on an undefined record, not a descriptive
configuration error) or a keyframe whose flat pixel buffer length differs
from its `width * height` shape (the tensor-shape error of `_prebuild`).
Whenever every target's keyframe is present and shape-consistent,
construction succeeds — in particular for empty point lists and for
marker-dimension lists whose length does not match the target count, which
are accepted silently. -/
theorem c9_construction_accepts_malformed (c : TrackerConsts) (md : List (ℚ × ℚ))
    (tdl : List (List ITrackingFeature)) (proj : Fin 3 → Fin 4 → ℚ) (w h : ℕ)
    (dbg : Bool) (hkf : ∀ l ∈ tdl, c.TRACKING_KEYFRAME < l.length)
    (hdata : ∀ l ∈ tdl,
      (l.getD c.TRACKING_KEYFRAME defaultKeyframe).data.length =
        (l.getD c.TRACKING_KEYFRAME defaultKeyframe).width *
          (l.getD c.TRACKING_KEYFRAME defaultKeyframe).height) :
    (Tracker.make c md tdl proj w h dbg).isSome = true := by
  unfold Tracker.make
  rw [mapM_get?_eq_map c.TRACKING_KEYFRAME defaultKeyframe tdl hkf]
  simp
  intro a ha
  simpa [List.getD_eq_getD_get?, List.get?_eq_getElem?] using hdata a ha

/-- A keyframe with an empty point list. -/
def kfEmpty : ITrackingFeature := ⟨[], [], 0, 0, 1⟩

/-- C9 is refuted on the code: a doubly malformed construction input — the
marker-dimension list has two entries while there is a single target, and
that target's keyframe has an empty point list — is accepted: the
constructor succeeds instead of failing fast with a configuration error. -/
theorem c9_counterexample_empty_points_succeeds :
    kfEmpty.points.length = 0 ∧
      (Tracker.make cEx1 [(1, 1), (2, 2)] [[kfEmpty]] (fun _ _ => 0) 4 4 false).isSome =
        true :=
  ⟨rfl, rfl⟩

/-- Instantiation of the no-validation statement at a concrete malformed
input. -/
theorem c9_witness :
    (Tracker.make cEx1 [(1, 1), (2, 2)] [[kfEmpty]] (fun _ _ => 1) 4 4 true).isSome =
      true :=
  c9_construction_accepts_malformed cEx1 [(1, 1), (2, 2)] [[kfEmpty]] (fun _ _ => 1) 4 4
    true
    (by
      intro l hl
      rw [List.mem_singleton] at hl
      subst hl
      decide)
    (by
      intro l hl
      rw [List.mem_singleton] at hl
      subst hl
      decide)

/-! ### C8: the counterexample run -/

/-- A 1×1 target with a single feature point at the origin. -/
def kfC8 : ITrackingFeature := ⟨[0], [⟨0, 0⟩], 1, 1, 1⟩

/-- The tracker state the constructor builds for `kfC8` (all fields are the
constructor's outputs; see `c8_counterexample_count_below_points`). -/
def trackerC8 : Tracker :=
  { projectionTransform := fun _ _ => 0
    trackingKeyframeList := [kfC8]
    debugMode := false
    featurePointsList := [prebuildFeaturePoints kfC8 1]
    imagePixelsList := [prebuildImagePixels kfC8]
    imagePropertiesList := [prebuildImageProperties kfC8] }

/-- A dummy prior pose. -/
def mvC8 : Fin 3 → Fin 4 → ℚ := fun _ _ => 1

/-- A 1×1 camera frame. -/
def inputC8 : List (List ℚ) := [[0]]

/-- On a 1×1 target with template half size 1 every candidate window leaves
the valid interior, so kernel 1 emits `-2` everywhere. -/
theorem matchingOOB_cEx1_all (feats : List (ℚ × ℚ)) (ms : ℚ) (i j : ℕ) :
    matchingOOB cEx1 1 1 feats ms i j := by
  unfold matchingOOB
  rw [show cEx1.templateOneSize = 1 from rfl]
  push_cast
  omega

theorem kernel1_cEx1_all_oob (feats : List (ℚ × ℚ)) (marker : List ℚ)
    (props : ℕ × ℕ × ℚ) (target : List (List ℚ)) (i j : ℕ) :
    kernel1Sim cEx1 1 1 feats marker props target i j = -2 := by
  unfold kernel1Sim
  rw [if_pos (matchingOOB_cEx1_all feats props.2.2 i j)]

/-- On the 1×1 target the winning similarity of every slot is the sentinel
`-2`. -/
theorem best_sim_cEx1 (feats : List (ℚ × ℚ)) (marker : List ℚ) (props : ℕ × ℕ × ℚ)
    (target : List (List ℚ)) (i : ℕ) :
    kernel3Sim (computeMatchingRow cEx1 1 1 feats marker props target i)
      (listArgMax (computeMatchingRow cEx1 1 1 feats marker props target i)) = -2 := by
  have hne : computeMatchingRow cEx1 1 1 feats marker props target i ≠ [] := by
    apply List.ne_nil_of_length_pos
    unfold computeMatchingRow
    rw [List.length_map, List.length_range]
    decide
  obtain ⟨hm, _, _⟩ := listArgMax_spec _ hne
  unfold kernel3Sim
  rw [List.getD_eq_getElem _ _ hm]
  unfold computeMatchingRow at hm ⊢
  simp only [List.getElem_map, List.getElem_range]
  exact kernel1_cEx1_all_oob feats marker props target i _

/-- C8 is refuted on the code: for the 1×1 single-point target every
candidate is out of bounds, the best similarity `-2` fails the threshold
`4/5`, and `track` returns zero correspondences while
`target.points.length = 1`. -/
theorem c8_counterexample_count_below_points :
    Tracker.make cEx1 [] [[kfC8]] (fun _ _ => 0) 1 1 false = some trackerC8 ∧
      (trackKF trackerC8 0).points.length = 1 ∧
      (Tracker.track cEx1 trackerC8 none inputC8 mvC8 0).1.1.length = 0 ∧
      (Tracker.track cEx1 trackerC8 none inputC8 mvC8 0).1.1.length ≠
        (trackKF trackerC8 0).points.length := by
  have hsims_eq : trackSims cEx1 trackerC8 none inputC8 mvC8 0 =
      computeMatchingSim cEx1 1 1 (prebuildFeaturePoints kfC8 1) kfC8.data (1, 1, 1)
        (trackProjected trackerC8 inputC8 mvC8 0) := rfl
  have hmps_eq : trackMatchingPoints cEx1 trackerC8 none inputC8 mvC8 0 =
      computeMatchingPoints cEx1 1 1 (prebuildFeaturePoints kfC8 1) kfC8.data (1, 1, 1)
        (trackProjected trackerC8 inputC8 mvC8 0) := rfl
  have hfeatlen : (prebuildFeaturePoints kfC8 1).length = 1 := by
    unfold prebuildFeaturePoints
    simp
  have hs0 : (trackSims cEx1 trackerC8 none inputC8 mvC8 0).getD 0 0 = -2 := by
    rw [hsims_eq]
    unfold computeMatchingSim
    rw [getD_map_range _ _ _ (by rw [hfeatlen]; omega)]
    exact best_sim_cEx1 _ _ _ _ 0
  have hlen1 : (trackMatchingPoints cEx1 trackerC8 none inputC8 mvC8 0).length = 1 := by
    rw [hmps_eq]
    unfold computeMatchingPoints
    rw [List.length_map, List.length_range, hfeatlen]
  have hcond : ¬ ((cEx1.AR2_SIM_THRESH : ℝ) <
      (trackSims cEx1 trackerC8 none inputC8 mvC8 0).getD 0 0 ∧
      0 < (trackKF trackerC8 0).points.length) := by
    rw [hs0]
    intro hx
    have := hx.1
    rw [show cEx1.AR2_SIM_THRESH = 4 / 5 from rfl] at this
    norm_num at this
  have hgood : trackGoodList cEx1 (trackKF trackerC8 0)
      (trackMatchingPoints cEx1 trackerC8 none inputC8 mvC8 0)
      (trackSims cEx1 trackerC8 none inputC8 mvC8 0) = [] := by
    unfold trackGoodList
    rw [hlen1]
    rw [show List.range 1 = [0] from rfl]
    simp only [List.filter_cons, List.filter_nil]
    rw [decide_eq_false hcond]
    rfl
  have htrack : (Tracker.track cEx1 trackerC8 none inputC8 mvC8 0).1.1 = [] := by
    unfold Tracker.track
    rw [trackExtract_eq, hgood]
    simp
  refine ⟨rfl, rfl, by rw [htrack]; rfl, ?_⟩
  rw [htrack]
  decide

/-- Instantiation of the correspondence-count statement at the concrete 1×1
target run. -/
theorem c8_witness :
    (Tracker.track cEx1 trackerC8 none inputC8 mvC8 0).1.1.length =
        (trackGoodList cEx1 (trackKF trackerC8 0)
          (trackMatchingPoints cEx1 trackerC8 none inputC8 mvC8 0)
          (trackSims cEx1 trackerC8 none inputC8 mvC8 0)).length ∧
      (0 ∈ trackGoodList cEx1 (trackKF trackerC8 0)
          (trackMatchingPoints cEx1 trackerC8 none inputC8 mvC8 0)
          (trackSims cEx1 trackerC8 none inputC8 mvC8 0) →
        0 < (trackKF trackerC8 0).points.length) ∧
      (Tracker.track cEx1 trackerC8 none inputC8 mvC8 0).1.1.length ≤
        (trackKF trackerC8 0).points.length := by
  obtain ⟨h1, h2, h3⟩ := c8_correspondence_count cEx1 trackerC8 none inputC8 mvC8 0
  exact ⟨h1, h2 0, h3⟩

/-! ### Witnesses for C3, C4, C5, C7 -/

/-- A small concrete marker-properties triple for witness instantiations. -/
def propsW : ℕ × ℕ × ℚ := (1, 1, 1)

/-- Instantiation of the sentinel-structure statement: an out-of-bounds
candidate evaluates to `-2`, and a slot with best similarity `-2` is not
accepted when the threshold is `4/5 ≥ -2`. -/
theorem c3_witness :
    kernel1Sim cEx1 1 1 [] [] propsW [] 0 0 = -2 ∧
      0 ∉ trackGoodList cEx1 kfC8 [((0 : ℚ), (0 : ℚ))] [(-2 : ℝ)] := by
  obtain ⟨h1, _, _, _, h5⟩ := c3_matching_sentinels cEx1 1 1 [] [] propsW [] 0 0
  refine ⟨h1.mpr (matchingOOB_cEx1_all [] propsW.2.2 0 0), ?_⟩
  refine h5 kfC8 [((0 : ℚ), (0 : ℚ))] [(-2 : ℝ)] 0 (Or.inl rfl) ?_
  rw [show cEx1.AR2_SIM_THRESH = 4 / 5 from rfl]
  norm_num

/-- Instantiation of the search-grid statement at offset index 5 of the
3×3 grid. -/
theorem c4_witness :
    ∃ k, k < 2 * cEx1.searchOneSize + 1 ∧
      candX cEx1 [] propsW.2.2 0 5 =
        sCenterX [] propsW.2.2 0 - cEx1.searchOneSize + (k : ℤ) * cEx1.searchGap :=
  (c4_search_grid_structure cEx1 1 1 [] [] propsW [] 0).2.1 5 (by decide)

/-- Instantiation of the quantization statement for a single feature at the
origin, stride 1. -/
theorem c5_witness :
    ∃ kx ky : ℤ, -(cEx1.searchOneSize : ℤ) ≤ kx ∧ kx ≤ cEx1.searchOneSize ∧
      -(cEx1.searchOneSize : ℤ) ≤ ky ∧ ky ≤ cEx1.searchOneSize ∧
      (computeMatchingPoints cEx1 1 1 [((0 : ℚ), (0 : ℚ))] [] propsW []).getD 0 (0, 0) =
        (((([((0 : ℚ), (0 : ℚ))] : List (ℚ × ℚ)).getD 0 (0, 0)).1 +
            (kx : ℚ) * (cEx1.AR2_SEARCH_GAP : ℚ) / propsW.2.2),
          ((([((0 : ℚ), (0 : ℚ))] : List (ℚ × ℚ)).getD 0 (0, 0)).2 +
            (ky : ℚ) * (cEx1.AR2_SEARCH_GAP : ℚ) / propsW.2.2)) :=
  c5_refined_location_quantization cEx1 rfl 1 1 [((0 : ℚ), (0 : ℚ))] [] propsW [] 0
    (by decide)

/-- Instantiation of the selection statement: the winning index of slot 0 is
in range and candidate 3 scores no better than the winner. -/
theorem c7_witness :
    listArgMax (computeMatchingRow cEx1 1 1 [((0 : ℚ), (0 : ℚ))] [] propsW [] 0) <
        (computeMatchingRow cEx1 1 1 [((0 : ℚ), (0 : ℚ))] [] propsW [] 0).length ∧
      (computeMatchingRow cEx1 1 1 [((0 : ℚ), (0 : ℚ))] [] propsW [] 0).getD 3 0 ≤
        (computeMatchingRow cEx1 1 1 [((0 : ℚ), (0 : ℚ))] [] propsW [] 0).getD
          (listArgMax (computeMatchingRow cEx1 1 1 [((0 : ℚ), (0 : ℚ))] [] propsW [] 0)) 0 := by
  obtain ⟨h1, h2, _⟩ :=
    c7_selection_max_first cEx1 1 1 [((0 : ℚ), (0 : ℚ))] [] propsW [] 0 (by decide)
  refine ⟨h1, h2 3 ?_⟩
  unfold computeMatchingRow
  rw [List.length_map, List.length_range]
  decide

end MindAR
